import Mathlib

/-
  Verification development for the httprunner/video-downloader repository.

  The Go sources are shallowly embedded: each Go function relevant to the
  properties below is translated into a Lean definition over explicit state
  and environment records; side effects (HTTP requests, file-system calls,
  goroutine spawns, channel sends) are represented as data in the result so
  that theorems can speak about them.

  Statuses are modelled as `String`, mirroring the Go code, where both the
  resume engine's `ResumableJob.Status` and the batch manager's `JobStatus`
  are string-typed.
-/

namespace VD

namespace Resume

/-- Configuration record mirroring `ResumableConfig` in
`internal/resume/downloader.go`. `timeout` is in nanoseconds, matching Go's
`time.Duration` (an `int64` count of nanoseconds). -/
structure ResumableConfig where
  metaDir : String
  tempDir : String
  chunkSize : Int
  maxRetries : Int
  timeout : Int
  userAgent : String
deriving Repr, DecidableEq

/-- The default-substitution prefix of `NewResumableDownloader`
(`internal/resume/downloader.go`, lines 80-95): each zero-valued field of
the incoming config is replaced by a fixed default, in program order. -/
def applyConfigDefaults (config : ResumableConfig) : ResumableConfig :=
  let config := if config.metaDir = "" then { config with metaDir := "./temp/metadata" } else config
  let config := if config.tempDir = "" then { config with tempDir := "./temp/downloads" } else config
  let config := if config.chunkSize = 0 then { config with chunkSize := 1024 * 1024 } else config
  let config := if config.maxRetries = 0 then { config with maxRetries := 3 } else config
  let config := if config.timeout = 0 then { config with timeout := 30 * 1000000000 } else config
  config

/-- In-memory transfer-job record mirroring the persisted fields of
`ResumableJob` in `internal/resume/downloader.go`. Sizes and counters are
`Int`, matching Go's `int64`/`int`. -/
structure ResumableJob where
  id : String
  url : String
  filePath : String
  tempPath : String
  metaPath : String
  fileSize : Int
  downloaded : Int
  status : String
  checksum : String
  retryCount : Int
  lastError : String
deriving Repr, DecidableEq

/-- `generateJobID` (`internal/resume/downloader.go`, lines 566-571) hashes
the string `url + ":" + filePath` with MD5 and hex-encodes it. The digest is
abstracted as a function argument `md5hex`; the proofs only use that equal
inputs give equal ids. -/
def generateJobID (md5hex : String → String) (url filePath : String) : String :=
  md5hex (url ++ ":" ++ filePath)

/-- The downloader's mutable registry state: `tempDir`, `metaDir` and the
`activeJobs` map (modelled as an association list keyed by job id). -/
structure DownloaderState where
  tempDir : String
  metaDir : String
  activeJobs : List (String × ResumableJob)
deriving Repr, DecidableEq

/-- Go map lookup `rd.activeJobs[jobID]`. -/
def lookupJob (jobs : List (String × ResumableJob)) (jobID : String) : Option ResumableJob :=
  (jobs.find? (fun p => p.1 == jobID)).map (·.2)

/-- Effects the synchronous part of `StartDownload`/`resumeDownload` can
issue. All network I/O of the engine happens inside the spawned
`downloadJob` goroutine, so a run with no `spawnTransfer` effect performs no
network call and starts no transfer. -/
inductive StartEffect where
  | spawnTransfer (jobID : String)
deriving Repr, DecidableEq

/-- Result of the synchronous part of `StartDownload`. -/
structure StartResult where
  job : ResumableJob
  effects : List StartEffect
  state : DownloaderState
deriving Repr, DecidableEq

/-- `resumeDownload` (`internal/resume/downloader.go`, lines 181-203):
returns the job unchanged with no spawn when it is already `downloading` or
`completed`; otherwise re-arms the context and spawns `downloadJob`. -/
def resumeDownloadStep (job : ResumableJob) : ResumableJob × List StartEffect :=
  if job.status = "downloading" then (job, [])
  else if job.status = "completed" then (job, [])
  else (job, [StartEffect.spawnTransfer job.id])

/-- `StartDownload` (`internal/resume/downloader.go`, lines 123-165): computes
the job id from (url, filePath); when a job with that id is registered,
returns it directly if completed and otherwise resumes it; when no job is
registered, creates a fresh `pending` job, registers it and spawns its
transfer. -/
def startDownload (md5hex : String → String) (s : DownloaderState)
    (url filePath : String) : StartResult :=
  let jobID := generateJobID md5hex url filePath
  match lookupJob s.activeJobs jobID with
  | some existingJob =>
    if existingJob.status = "completed" then
      { job := existingJob, effects := [], state := s }
    else
      let r := resumeDownloadStep existingJob
      { job := r.1, effects := r.2, state := s }
  | none =>
    let job : ResumableJob :=
      { id := jobID
        url := url
        filePath := filePath
        tempPath := s.tempDir ++ "/" ++ jobID ++ ".tmp"
        metaPath := s.metaDir ++ "/" ++ jobID ++ ".json"
        fileSize := 0
        downloaded := 0
        status := "pending"
        checksum := ""
        retryCount := 0
        lastError := "" }
    { job := job
      effects := [StartEffect.spawnTransfer jobID]
      state := { s with activeJobs := (jobID, job) :: s.activeJobs } }

/-- A concrete completed job record, used to witness C1. -/
def sampleCompletedJob : ResumableJob :=
  { id := "http://x/v.mp4:/out/v.mp4"
    url := "http://x/v.mp4"
    filePath := "/out/v.mp4"
    tempPath := "t"
    metaPath := "m"
    fileSize := 10
    downloaded := 10
    status := "completed"
    checksum := ""
    retryCount := 0
    lastError := "" }

/-- A concrete downloader state whose registry holds exactly
`sampleCompletedJob`, used to witness C1. -/
def sampleState : DownloaderState :=
  { tempDir := "./temp/downloads"
    metaDir := "./temp/metadata"
    activeJobs := [("http://x/v.mp4:/out/v.mp4", sampleCompletedJob)] }

/-- An HTTP request as assembled by `performDownload`: method, URL and the
optional `Range` header. (Building the request object itself cannot fail for
the URLs reaching this code, so request construction is modelled as total;
the other headers are copied verbatim from the job and do not influence the
properties proved here.) -/
structure HttpRequest where
  method : String
  url : String
  range : Option String
deriving Repr, DecidableEq

/-- Environment of one `performDownload` attempt: what the file system and
the network return at each of its effect points.
`tempSize` is the result of `os.Stat(job.TempPath)` (`none` when the stat
errors, e.g. the temp file does not exist); `doFails` says whether
`rd.client.Do` returns an error; `respStatus` is the HTTP status of the
response otherwise; `openFails` covers `os.OpenFile`; `copyErr` says whether
`io.Copy` returns an error, and `ctxCancelled` whether `job.ctx.Err() != nil`
at the copy-error check. -/
structure TransferEnv where
  tempSize : Option Int
  doFails : Bool
  respStatus : Nat
  openFails : Bool
  copyErr : Bool
  ctxCancelled : Bool
deriving Repr, DecidableEq

/-- The status `performDownload` requires of the GET response
(`internal/resume/downloader.go`, lines 366-369): 206 Partial Content when
resuming from a positive offset, 200 OK otherwise. -/
def expectedStatus (startByte : Int) : Nat :=
  if startByte > 0 then 206 else 200

/-- Result of one `performDownload` attempt: the GET request that was issued,
the job record as updated by the attempt, and the attempt's outcome. -/
structure AttemptResult where
  request : HttpRequest
  updatedJob : ResumableJob
  outcome : Except String Unit
deriving Repr

/-- `performDownload` (`internal/resume/downloader.go`, lines 332-397):
reads the resume offset from the temp file's current size (0 when the stat
fails), records it in `job.Downloaded` when the stat succeeds, issues a GET
with a `Range: bytes=<offset>-` header exactly when the offset is positive,
and fails unless the transport succeeds, the status equals
`expectedStatus`, the temp file opens for append, and the body copy
completes (a copy error is swallowed when the job's context was
cancelled). -/
def performDownload (job : ResumableJob) (env : TransferEnv) : AttemptResult :=
  let startByte : Int := env.tempSize.getD 0
  let job' := match env.tempSize with
    | some n => { job with downloaded := n }
    | none => job
  let req : HttpRequest :=
    { method := "GET"
      url := job.url
      range := if startByte > 0 then some ("bytes=" ++ toString startByte ++ "-") else none }
  if env.doFails then
    { request := req, updatedJob := job', outcome := .error "GET request failed" }
  else if env.respStatus ≠ expectedStatus startByte then
    { request := req, updatedJob := job'
      outcome := .error ("unexpected status code: " ++ toString env.respStatus) }
  else if env.openFails then
    { request := req, updatedJob := job', outcome := .error "failed to open temp file" }
  else if env.copyErr ∧ ¬ env.ctxCancelled then
    { request := req, updatedJob := job', outcome := .error "failed to download file" }
  else
    { request := req, updatedJob := job', outcome := .ok () }

/-- Boolean success test on an attempt outcome. -/
def outcomeOk : Except String Unit → Bool
  | .ok _ => true
  | .error _ => false

/-- Environment of `completeJob`: what the file system returns at its effect
points. `tempStat` is `os.Stat(job.TempPath)` (the temp file's size, `none`
on error), `tempChecksum` the result of `calculateChecksum(job.TempPath)`,
`mkdirFails` covers `os.MkdirAll(filepath.Dir(job.FilePath))` and
`renameFails` covers `os.Rename(job.TempPath, job.FilePath)`. -/
structure CompleteEnv where
  tempStat : Option Int
  tempChecksum : Except String String
  mkdirFails : Bool
  renameFails : Bool

/-- `verifyFile` (`internal/resume/downloader.go`, lines 466-490): stat the
temp file; when a total size is known (`FileSize > 0`) it must match; when a
checksum is supplied (`Checksum ≠ ""`) the MD5 of the temp file must be
computable and equal to it. -/
def verifyFile (job : ResumableJob) (env : CompleteEnv) : Except String Unit :=
  match env.tempStat with
  | none => .error "failed to stat temp file"
  | some size =>
    if job.fileSize > 0 ∧ size ≠ job.fileSize then
      .error ("file size mismatch: expected " ++ toString job.fileSize
        ++ ", got " ++ toString size)
    else if job.checksum ≠ "" then
      match env.tempChecksum with
      | .error e => .error ("failed to calculate checksum: " ++ e)
      | .ok actual =>
        if actual ≠ job.checksum then
          .error ("checksum mismatch: expected " ++ job.checksum ++ ", got " ++ actual)
        else .ok ()
    else .ok ()

/-- `handleJobError` (`internal/resume/downloader.go`, lines 446-463): set
status "failed", record the error and persist; the temp file is untouched. -/
def handleJobError (job : ResumableJob) (msg : String) : ResumableJob :=
  { job with status := "failed", lastError := msg }

/-- Result of `completeJob`: the final job record, whether the temp file was
moved to the final destination (`os.Rename` performed and succeeded), and
whether the metadata file was removed. -/
structure CompleteResult where
  job : ResumableJob
  movedToFinal : Bool
  metaRemoved : Bool

/-- `completeJob` (`internal/resume/downloader.go`, lines 400-443): verify
the temp file; on verification failure the job fails and nothing is moved;
otherwise create the destination directory, rename the temp file to the
final path, mark the job completed and delete the metadata file. -/
def completeJob (job : ResumableJob) (env : CompleteEnv) : CompleteResult :=
  match verifyFile job env with
  | .error e =>
    { job := handleJobError job ("file verification failed: " ++ e)
      movedToFinal := false, metaRemoved := false }
  | .ok _ =>
    if env.mkdirFails then
      { job := handleJobError job "failed to create directory"
        movedToFinal := false, metaRemoved := false }
    else if env.renameFails then
      { job := handleJobError job "failed to move file"
        movedToFinal := false, metaRemoved := false }
    else
      { job := { job with status := "completed" }
        movedToFinal := true, metaRemoved := true }

/-- Environment of one iteration of `downloadJob`'s retry loop: the
`performDownload` environment for the attempt, whether `job.ctx.Err() != nil`
when `downloadJob` inspects it after a failed attempt, and whether the
context is cancelled during the backoff wait before the next attempt. -/
structure AttemptEnv where
  transfer : TransferEnv
  ctxCancelledAtCheck : Bool
  cancelledDuringBackoff : Bool

/-- The retry loop of `downloadJob` (`internal/resume/downloader.go`, lines
238-290) followed by its exit actions, returning the job's final status.
The environment list carries one entry per attempt the loop may run
(`maxRetries + 1` of them in the program). When `performDownload` reports
success — which, per lines 391-394, includes a body-copy failure whose
context was cancelled — the loop calls `completeJob`. On a failed attempt:
a cancelled context at the check yields status "paused"; with attempts left
the loop backs off (returning with the status still "downloading" if the
context is cancelled during the wait) and retries; with no attempt left the
loop falls through to `handleJobError`, status "failed". -/
def runRetryLoop (job : ResumableJob) (cenv : CompleteEnv) :
    List AttemptEnv → String
  | [] => "failed"
  | e :: rest =>
    match (performDownload job e.transfer).outcome with
    | .ok _ => (completeJob job cenv).job.status
    | .error _ =>
      if e.ctxCancelledAtCheck then "paused"
      else
        match rest with
        | [] => "failed"
        | _ :: _ =>
          if e.cancelledDuringBackoff then "downloading"
          else runRetryLoop job cenv rest

/-- Outcome of sending on the progress channel as seen by the producer. -/
inductive SendOutcome where
  | delivered
  | dropped
  | blocked
deriving Repr, DecidableEq

/-- The progress sink as the producer observes it at the moment of a send:
`ready` is true when the channel has buffer room or a waiting receiver, so a
send completes immediately. -/
structure ProgressSink where
  ready : Bool
deriving Repr, DecidableEq

/-- The send in `progressWriter.Write` (`internal/resume/downloader.go`,
lines 687-701): a `select` with a `default` arm — delivered when the sink is
ready, dropped otherwise. -/
def progressWriterSend (sink : ProgressSink) : SendOutcome :=
  if sink.ready then .delivered else .dropped

/-- The final-update send in `completeJob` (`internal/resume/downloader.go`,
lines 433-439): a plain channel send — delivered when the sink is ready,
blocking the producer otherwise. -/
def completeJobSend (sink : ProgressSink) : SendOutcome :=
  if sink.ready then .delivered else .blocked

/-- The failure-update send in `handleJobError` (`internal/resume/downloader.go`,
lines 457-462): a plain channel send — delivered when the sink is ready,
blocking the producer otherwise. -/
def handleJobErrorSend (sink : ProgressSink) : SendOutcome :=
  if sink.ready then .delivered else .blocked

end Resume

namespace Batch

/-- Aggregate progress counters of a batch job, mirroring `BatchProgress` in
the `batch` package (`internal/auth/middleware.go`, lines 229-236). The
float-valued `Percentage` field is not used by `updateJobStatus` and is
omitted. Counters are `Nat`: in every execution they start at 0 and are only
incremented. -/
structure BatchProgress where
  total : Nat
  completed : Nat
  failed : Nat
  skipped : Nat
  inProgress : Int
deriving Repr, DecidableEq

/-- `BatchManager.updateJobStatus` (`internal/auth/middleware.go`, lines
567-575): the final status is "partial" when both failures and completions
occurred; else "failed" when the failure count equals the total; else
"completed" when completions plus skips equal the total; else the status is
left unchanged. -/
def updateJobStatus (p : BatchProgress) (status : String) : String :=
  if 0 < p.failed ∧ 0 < p.completed then "partial"
  else if p.failed = p.total then "failed"
  else if p.completed + p.skipped = p.total then "completed"
  else status

/-- Coarse scheduling state of one spawned per-item task, used for the
`Manager.DownloadBatch` model: not yet started, waiting at a gate (unused
there — `DownloadBatch` has no gate), running its per-item work, or
finished. -/
inductive TaskState where
  | notStarted
  | waitingSem
  | running
  | done
deriving Repr, DecidableEq

/-- Number of tasks currently in the `running` state. -/
def runningCount (ts : List TaskState) : Nat :=
  ts.countP (fun t => decide (t = TaskState.running))

/-- Initial state of a batch of `n` per-item tasks: all spawned, none
started. -/
def initTasks (n : Nat) : List TaskState :=
  List.replicate n TaskState.notStarted

/-- Phase of one item goroutine of `BatchManager.downloadVideos`
(`internal/auth/middleware.go`, lines 396-476): spawned by the range loop,
blocked sending on the semaphore channel, inside the slot-guarded section
(between `bm.semaphore <- struct{}{}` and the deferred `<-bm.semaphore`),
or finished with the slot released. -/
inductive ItemPhase where
  | notStarted
  | waitingSem
  | inSlot
  | released
deriving Repr, DecidableEq

/-- Phase of the transfer work behind the item's `bm.downloader.Download`
call. `Manager.Download` (`src/unnamed/part_006`) blocks only until
`processDownload` sends a result, and `processDownload` calls
`utils.DownloadManager.Download` (`internal/utils/downloader.go`, lines
77-98), which spawns `go dm.downloadFile(job, progressChan)` — the HTTP
fetch and byte copy — and returns nil at once. The result therefore arrives
and the item task leaves its slot while the spawned transfer is still
streaming. -/
inductive TransferPhase where
  | notSpawned
  | streaming
  | finished
deriving Repr, DecidableEq

/-- State of one batch item: the phase of its item goroutine and the phase
of its detached transfer goroutine. -/
structure ItemState where
  item : ItemPhase
  transfer : TransferPhase
deriving Repr, DecidableEq

/-- Number of item tasks currently holding a semaphore slot. -/
def slotCount (ts : List ItemState) : Nat :=
  ts.countP (fun s => decide (s.item = ItemPhase.inSlot))

/-- Number of transfers currently executing: spawned `downloadFile`
goroutines that have not finished. -/
def streamingCount (ts : List ItemState) : Nat :=
  ts.countP (fun s => decide (s.transfer = TransferPhase.streaming))

/-- Interleaving semantics of `downloadVideos` with the detached transfer
made explicit. `acquire` needs a free slot, because
`bm.semaphore <- struct{}{}` blocks while the capacity-`M` channel
(`internal/auth/middleware.go`, line 258) holds `M` tokens; `handOff` is
the `go dm.downloadFile(...)` spawn performed inside the slot by the nested
`Download` call chain; `release` is the deferred `<-bm.semaphore` once the
item's result has arrived — it does not wait for the spawned transfer;
`finishTransfer` ends a streaming transfer at any later point, independent
of the slots. -/
inductive ItemStep (M : Nat) : List ItemState → List ItemState → Prop where
  | start (ts : List ItemState) (i : Nat) (hlt : i < ts.length)
      (h : (ts.get ⟨i, hlt⟩).item = ItemPhase.notStarted) :
      ItemStep M ts (ts.set i
        { item := ItemPhase.waitingSem, transfer := (ts.get ⟨i, hlt⟩).transfer })
  | acquire (ts : List ItemState) (i : Nat) (hlt : i < ts.length)
      (h : (ts.get ⟨i, hlt⟩).item = ItemPhase.waitingSem)
      (hM : slotCount ts < M) :
      ItemStep M ts (ts.set i
        { item := ItemPhase.inSlot, transfer := (ts.get ⟨i, hlt⟩).transfer })
  | handOff (ts : List ItemState) (i : Nat) (hlt : i < ts.length)
      (h : (ts.get ⟨i, hlt⟩).item = ItemPhase.inSlot)
      (htr : (ts.get ⟨i, hlt⟩).transfer = TransferPhase.notSpawned) :
      ItemStep M ts (ts.set i
        { item := ItemPhase.inSlot, transfer := TransferPhase.streaming })
  | release (ts : List ItemState) (i : Nat) (hlt : i < ts.length)
      (h : (ts.get ⟨i, hlt⟩).item = ItemPhase.inSlot) :
      ItemStep M ts (ts.set i
        { item := ItemPhase.released, transfer := (ts.get ⟨i, hlt⟩).transfer })
  | finishTransfer (ts : List ItemState) (i : Nat) (hlt : i < ts.length)
      (htr : (ts.get ⟨i, hlt⟩).transfer = TransferPhase.streaming) :
      ItemStep M ts (ts.set i
        { item := (ts.get ⟨i, hlt⟩).item, transfer := TransferPhase.finished })

/-- States reachable by interleaved execution of a batch's item tasks and
their detached transfers. -/
def ItemReachable (M : Nat) : List ItemState → List ItemState → Prop :=
  Relation.ReflTransGen (ItemStep M)

/-- Initial state of a batch of `n` items: all item goroutines spawned by
the `for _, video := range videos` loop, no transfer spawned yet. -/
def initItems (n : Nat) : List ItemState :=
  List.replicate n { item := ItemPhase.notStarted, transfer := TransferPhase.notSpawned }

end Batch

namespace Mgr

/-- Interleaving semantics of `Manager.DownloadBatch`
(`src/unnamed/part_006`, `DownloadBatch`): the loop spawns one goroutine per
URL, each of which immediately calls `m.Download`, whose
`m.processDownload(req)` starts the per-item work in a fresh goroutine with
no semaphore or worker-pool gate in between — so a task can enter its
transfer at any time, with no precondition on how many are already
running. -/
inductive MgrStep : List Batch.TaskState → List Batch.TaskState → Prop where
  | start (ts : List Batch.TaskState) (i : Nat) (hlt : i < ts.length)
      (hts : ts.get ⟨i, hlt⟩ = Batch.TaskState.notStarted) :
      MgrStep ts (ts.set i Batch.TaskState.running)
  | finish (ts : List Batch.TaskState) (i : Nat) (hlt : i < ts.length)
      (hts : ts.get ⟨i, hlt⟩ = Batch.TaskState.running) :
      MgrStep ts (ts.set i Batch.TaskState.done)

/-- States reachable by interleaved execution of `DownloadBatch`'s per-URL
goroutines. -/
def MgrReachable : List Batch.TaskState → List Batch.TaskState → Prop :=
  Relation.ReflTransGen MgrStep

end Mgr

namespace M3U8

/-- `segmentFiles[index] = segmentFile` (`internal/utils/downloader.go`,
line 395): the fetch of segment `i` stores its result in slot `i` of the
shared slice, whatever order fetches complete in. -/
def setSlot (files : Fin n → Option (List Nat)) (i : Fin n) (data : List Nat) :
    Fin n → Option (List Nat) :=
  fun j => if j = i then some data else files j

/-- The concurrent fetch phase of `DownloadM3U8`
(`internal/utils/downloader.go`, lines 373-405): `contents i` is the body of
segment `i`; `order` lists the indices in the order their fetches complete;
each completion writes its own slot. -/
def runFetches (contents : Fin n → List Nat) (order : List (Fin n))
    (files : Fin n → Option (List Nat)) : Fin n → Option (List Nat) :=
  order.foldl (fun fs i => setSlot fs i (contents i)) files

/-- `mergeSegments` (`internal/utils/downloader.go`, lines 438-459): copy
each segment file into the output in slice order; the output is the
left-to-right concatenation. -/
def mergeSegments (files : List (List Nat)) : List Nat :=
  files.foldl (fun out seg => out ++ seg) []

/-- The output of a successful `DownloadM3U8` run: all fetches completed
(the `order` trace), no errors were recorded, and `mergeSegments` was run
over `segmentFiles` in slice (= playlist) order. An unfilled slot reads as
`[]`, mirroring the empty-path open that would fail; the success hypothesis
of the ordering theorem rules this out. -/
def downloadOutput (contents : Fin n → List Nat) (order : List (Fin n)) : List Nat :=
  mergeSegments (List.ofFn (fun i => ((runFetches contents order (fun _ => none)) i).getD []))

end M3U8

end VD

/-- C10: every zero-valued field of the `ResumableConfig` passed to
`NewResumableDownloader` is replaced by its default — MetaDir
"./temp/metadata", TempDir "./temp/downloads", ChunkSize 1048576,
MaxRetries 3, Timeout 30 s (30 000 000 000 ns) — and every non-zero field is
kept unchanged. -/
theorem VD.Resume.config_defaults (c : VD.Resume.ResumableConfig) :
    (VD.Resume.applyConfigDefaults c).metaDir
        = (if c.metaDir = "" then "./temp/metadata" else c.metaDir)
    ∧ (VD.Resume.applyConfigDefaults c).tempDir
        = (if c.tempDir = "" then "./temp/downloads" else c.tempDir)
    ∧ (VD.Resume.applyConfigDefaults c).chunkSize
        = (if c.chunkSize = 0 then 1048576 else c.chunkSize)
    ∧ (VD.Resume.applyConfigDefaults c).maxRetries
        = (if c.maxRetries = 0 then 3 else c.maxRetries)
    ∧ (VD.Resume.applyConfigDefaults c).timeout
        = (if c.timeout = 0 then 30000000000 else c.timeout)
    ∧ (VD.Resume.applyConfigDefaults c).userAgent = c.userAgent := by
  unfold VD.Resume.applyConfigDefaults
  by_cases h1 : c.metaDir = "" <;> by_cases h2 : c.tempDir = "" <;>
    by_cases h3 : c.chunkSize = 0 <;> by_cases h4 : c.maxRetries = 0 <;>
    by_cases h5 : c.timeout = 0 <;>
  simp [h1, h2, h3, h4, h5]

/-- C1: when the registry already holds a job for (url, destPath) whose
status is "completed", `StartDownload` returns that job, issues no effect
(in particular spawns no transfer and performs no network I/O) and leaves
the registry unchanged. -/
theorem VD.Resume.startDownload_completed_idempotent
    (md5hex : String → String) (s : VD.Resume.DownloaderState)
    (url filePath : String) (j : VD.Resume.ResumableJob)
    (hfound : VD.Resume.lookupJob s.activeJobs
        (VD.Resume.generateJobID md5hex url filePath) = some j)
    (hdone : j.status = "completed") :
    VD.Resume.startDownload md5hex s url filePath
      = { job := j, effects := [], state := s } := by
  simp only [VD.Resume.startDownload, hfound, hdone]
  simp

/-- Witness for C1: a concrete registry holding a completed job for
("http://x/v.mp4", "/out/v.mp4"); the second `StartDownload` returns that
job with no effects and unchanged state. -/
theorem VD.Resume.startDownload_completed_idempotent_witness :
    VD.Resume.startDownload (fun s => s) VD.Resume.sampleState
        "http://x/v.mp4" "/out/v.mp4"
      = { job := VD.Resume.sampleCompletedJob, effects := [],
          state := VD.Resume.sampleState } :=
  VD.Resume.startDownload_completed_idempotent (fun s => s)
    VD.Resume.sampleState "http://x/v.mp4" "/out/v.mp4"
    VD.Resume.sampleCompletedJob (by decide) (by decide)

/-- C2: in every `performDownload` attempt the resume offset is the current
size of the temporary file (0 when it does not exist) and is recorded in
`job.Downloaded`; a `Range: bytes=<offset>-` header is sent iff the offset
is positive; and the attempt fails with an error unless the response status
is 206 when the offset is positive and 200 when it is zero. -/
theorem VD.Resume.performDownload_offset_range_status
    (job : VD.Resume.ResumableJob) (env : VD.Resume.TransferEnv) :
    ((VD.Resume.performDownload job env).updatedJob.downloaded
        = match env.tempSize with
          | some n => n
          | none => job.downloaded)
    ∧ ((VD.Resume.performDownload job env).request.range
        = if 0 < env.tempSize.getD 0
          then some ("bytes=" ++ toString (env.tempSize.getD 0) ++ "-")
          else none)
    ∧ (VD.Resume.outcomeOk (VD.Resume.performDownload job env).outcome = true
        → env.respStatus = VD.Resume.expectedStatus (env.tempSize.getD 0))
    ∧ (env.respStatus ≠ VD.Resume.expectedStatus (env.tempSize.getD 0)
        → VD.Resume.outcomeOk (VD.Resume.performDownload job env).outcome = false) := by
  unfold VD.Resume.performDownload
  cases henv : env.tempSize <;>
    by_cases hdo : env.doFails <;>
    by_cases hst : env.respStatus = VD.Resume.expectedStatus (env.tempSize.getD 0) <;>
    by_cases hopen : env.openFails <;>
    by_cases hcopy : env.copyErr <;>
    by_cases hctx : env.ctxCancelled <;>
  simp_all [VD.Resume.outcomeOk, Int.lt_iff_add_one_le]

/-- Witness for C2: a concrete resumed attempt — temp file of 4194304 bytes,
server answers 206 — instantiating the C2 contract. -/
theorem VD.Resume.performDownload_offset_range_status_witness :
    ((VD.Resume.performDownload VD.Resume.sampleCompletedJob
        { tempSize := some 4194304, doFails := false, respStatus := 206,
          openFails := false, copyErr := false, ctxCancelled := false }).updatedJob.downloaded
        = 4194304)
    ∧ ((VD.Resume.performDownload VD.Resume.sampleCompletedJob
        { tempSize := some 4194304, doFails := false, respStatus := 206,
          openFails := false, copyErr := false, ctxCancelled := false }).request.range
        = some "bytes=4194304-")
    ∧ (VD.Resume.outcomeOk (VD.Resume.performDownload VD.Resume.sampleCompletedJob
        { tempSize := some 4194304, doFails := false, respStatus := 206,
          openFails := false, copyErr := false, ctxCancelled := false }).outcome = true
        → (206 : Nat) = VD.Resume.expectedStatus 4194304) := by
  have h := VD.Resume.performDownload_offset_range_status VD.Resume.sampleCompletedJob
    { tempSize := some 4194304, doFails := false, respStatus := 206,
      openFails := false, copyErr := false, ctxCancelled := false }
  exact ⟨h.1, by simpa using h.2.1, by intro hx; decide⟩

/-- Helper: a successful `verifyFile` pins down the stat and checksum
observations — the temp size matches a known total size, and a supplied
checksum was recomputed and matched. -/
theorem VD.Resume.verifyFile_ok_facts (job : VD.Resume.ResumableJob)
    (env : VD.Resume.CompleteEnv)
    (hok : VD.Resume.verifyFile job env = .ok ()) :
    (0 < job.fileSize → env.tempStat = some job.fileSize)
    ∧ (job.checksum ≠ "" → env.tempChecksum = .ok job.checksum) := by
  unfold VD.Resume.verifyFile at hok
  split at hok
  · exact absurd hok (by simp)
  · next size heq =>
    split at hok
    · exact absurd hok (by simp)
    · next hsz =>
      have hsize : 0 < job.fileSize → env.tempStat = some job.fileSize := by
        intro hfs
        have h2 : size = job.fileSize := by
          by_contra hne2
          exact hsz ⟨hfs, hne2⟩
        rw [heq, h2]
      refine ⟨hsize, ?_⟩
      split at hok
      · next hck =>
        split at hok
        · exact absurd hok (by simp)
        · next actual hc =>
          split at hok
          · exact absurd hok (by simp)
          · next hne =>
            push_neg at hne
            intro _
            rw [hc, hne]
      · next hck =>
        intro h
        exact absurd h (by simpa using hck)

/-- Helper: a supplied checksum whose recomputation does not return exactly
that value makes `verifyFile` fail. -/
theorem VD.Resume.verifyFile_checksum_mismatch (job : VD.Resume.ResumableJob)
    (env : VD.Resume.CompleteEnv)
    (hck : job.checksum ≠ "")
    (hne : env.tempChecksum ≠ .ok job.checksum) :
    VD.Resume.verifyFile job env ≠ .ok () := by
  intro hok
  exact hne ((VD.Resume.verifyFile_ok_facts job env hok).2 hck)

/-- C3: `completeJob` moves the temp file to the final destination only when
`verifyFile` succeeded — hence only when the size matched any known total
size and a supplied checksum was recomputed and matched — and when a
checksum is supplied but the recomputed digest is not that value, the job
ends "failed" and no move is performed. -/
theorem VD.Resume.completeJob_verified_before_move
    (job : VD.Resume.ResumableJob) (env : VD.Resume.CompleteEnv) :
    ((VD.Resume.completeJob job env).movedToFinal = true →
      VD.Resume.verifyFile job env = .ok ()
      ∧ (0 < job.fileSize → env.tempStat = some job.fileSize)
      ∧ (job.checksum ≠ "" → env.tempChecksum = .ok job.checksum))
    ∧ (job.checksum ≠ "" → env.tempChecksum ≠ .ok job.checksum →
        (VD.Resume.completeJob job env).job.status = "failed"
        ∧ (VD.Resume.completeJob job env).movedToFinal = false) := by
  constructor
  · intro hmv
    have hok : VD.Resume.verifyFile job env = .ok () := by
      unfold VD.Resume.completeJob at hmv
      cases hvf : VD.Resume.verifyFile job env with
      | error e => rw [hvf] at hmv; simp at hmv
      | ok u => cases u; rfl
    exact ⟨hok, VD.Resume.verifyFile_ok_facts job env hok⟩
  · intro hck hne
    have hbad := VD.Resume.verifyFile_checksum_mismatch job env hck hne
    unfold VD.Resume.completeJob
    cases hvf : VD.Resume.verifyFile job env with
    | error e => simp [VD.Resume.handleJobError]
    | ok u => cases u; exact absurd hvf hbad

/-- Witness for C3: a job with checksum "abc" whose temp file hashes to
"ffff" ends "failed" and is not moved. -/
theorem VD.Resume.completeJob_verified_before_move_witness :
    (VD.Resume.completeJob
        { id := "j", url := "u", filePath := "/out/f", tempPath := "t",
          metaPath := "m", fileSize := 4, downloaded := 4,
          status := "downloading", checksum := "abc", retryCount := 0,
          lastError := "" }
        { tempStat := some 4, tempChecksum := .ok "ffff",
          mkdirFails := false, renameFails := false }).job.status = "failed"
    ∧ (VD.Resume.completeJob
        { id := "j", url := "u", filePath := "/out/f", tempPath := "t",
          metaPath := "m", fileSize := 4, downloaded := 4,
          status := "downloading", checksum := "abc", retryCount := 0,
          lastError := "" }
        { tempStat := some 4, tempChecksum := .ok "ffff",
          mkdirFails := false, renameFails := false }).movedToFinal = false :=
  (VD.Resume.completeJob_verified_before_move _ _).2 (by decide)
    (by intro h; injection h with h1; exact absurd h1 (by decide))

/-- Counterexample to C4 as stated: a joined batch of N = 2 items with F = 1
failed and 1 skipped (none completed) satisfies 0 < F < N, yet
`updateJobStatus` leaves the status at "running" — not "partial". -/
theorem VD.Batch.updateJobStatus_skip_fail_mix_stays_running :
    VD.Batch.updateJobStatus
        { total := 2, completed := 0, failed := 1, skipped := 1, inProgress := 0 }
        "running" = "running"
    ∧ ("running" : String) ≠ "partial"
    ∧ 0 < 1 ∧ 1 < 2 := by
  decide

/-- C4 (amended): for a joined batch of N > 0 items with C completed, F
failed, S skipped (C+F+S = N), starting from status "running": the final
status is "failed" iff F = N, "completed" iff F = 0, "partial" iff
0 < F < N and at least one item completed, and remains "running" iff
0 < F < N and no item completed. -/
theorem VD.Batch.updateJobStatus_final_characterization
    (p : VD.Batch.BatchProgress)
    (hjoin : p.completed + p.failed + p.skipped = p.total)
    (hN : 0 < p.total) :
    (VD.Batch.updateJobStatus p "running" = "failed" ↔ p.failed = p.total)
    ∧ (VD.Batch.updateJobStatus p "running" = "completed" ↔ p.failed = 0)
    ∧ (VD.Batch.updateJobStatus p "running" = "partial" ↔
        0 < p.failed ∧ p.failed < p.total ∧ 0 < p.completed)
    ∧ (VD.Batch.updateJobStatus p "running" = "running" ↔
        0 < p.failed ∧ p.failed < p.total ∧ p.completed = 0) := by
  unfold VD.Batch.updateJobStatus
  by_cases h1 : 0 < p.failed ∧ 0 < p.completed
  · rw [if_pos h1]
    refine ⟨?_, ?_, ?_, ?_⟩ <;> constructor <;> intro h <;>
      first
        | rfl
        | (exact absurd h (by decide))
        | omega
  · rw [if_neg h1]
    by_cases h2 : p.failed = p.total
    · rw [if_pos h2]
      refine ⟨?_, ?_, ?_, ?_⟩ <;> constructor <;> intro h <;>
        first
          | rfl
          | (exact absurd h (by decide))
          | omega
    · rw [if_neg h2]
      by_cases h3 : p.completed + p.skipped = p.total
      · rw [if_pos h3]
        refine ⟨?_, ?_, ?_, ?_⟩ <;> constructor <;> intro h <;>
          first
            | rfl
            | (exact absurd h (by decide))
            | omega
      · rw [if_neg h3]
        refine ⟨?_, ?_, ?_, ?_⟩ <;> constructor <;> intro h <;>
          first
            | rfl
            | (exact absurd h (by decide))
            | omega

/-- Witness for C4 (amended), matching the spec's scenario: a batch of 5
with 3 completed and 2 failed ends "partial". -/
theorem VD.Batch.updateJobStatus_final_characterization_witness :
    VD.Batch.updateJobStatus
        { total := 5, completed := 3, failed := 2, skipped := 0, inProgress := 0 }
        "running" = "partial" :=
  ((VD.Batch.updateJobStatus_final_characterization
      { total := 5, completed := 3, failed := 2, skipped := 0, inProgress := 0 }
      (by decide) (by decide)).2.2.1).mpr ⟨by decide, by decide, by decide⟩

/-- Counterexample to C5 as stated: with semaphore capacity M = 1 and a
batch of 3 items, the interleaving in which each item in turn acquires the
slot, hands its transfer off to a detached `downloadFile` goroutine
(`Manager.Download` returns as soon as `utils.DownloadManager.Download` has
spawned it) and releases the slot is reachable; it ends with all 3
transfers streaming simultaneously while no slot is held — more than the
configured maximum of 1 transfers executing at once. -/
theorem VD.Batch.downloadVideos_transfers_escape_gate :
    VD.Batch.ItemReachable 1 (VD.Batch.initItems 3)
      (List.replicate 3
        { item := VD.Batch.ItemPhase.released,
          transfer := VD.Batch.TransferPhase.streaming })
    ∧ VD.Batch.streamingCount
        (List.replicate 3
          { item := VD.Batch.ItemPhase.released,
            transfer := VD.Batch.TransferPhase.streaming }) = 3
    ∧ VD.Batch.slotCount
        (List.replicate 3
          { item := VD.Batch.ItemPhase.released,
            transfer := VD.Batch.TransferPhase.streaming }) = 0
    ∧ 1 < 3 := by
  refine ⟨?_, by decide, by decide, by decide⟩
  refine Relation.ReflTransGen.head (VD.Batch.ItemStep.start _ 0 (by decide) rfl) ?_
  refine Relation.ReflTransGen.head (VD.Batch.ItemStep.acquire _ 0 (by decide) rfl (by decide)) ?_
  refine Relation.ReflTransGen.head (VD.Batch.ItemStep.handOff _ 0 (by decide) rfl rfl) ?_
  refine Relation.ReflTransGen.head (VD.Batch.ItemStep.release _ 0 (by decide) rfl) ?_
  refine Relation.ReflTransGen.head (VD.Batch.ItemStep.start _ 1 (by decide) rfl) ?_
  refine Relation.ReflTransGen.head (VD.Batch.ItemStep.acquire _ 1 (by decide) rfl (by decide)) ?_
  refine Relation.ReflTransGen.head (VD.Batch.ItemStep.handOff _ 1 (by decide) rfl rfl) ?_
  refine Relation.ReflTransGen.head (VD.Batch.ItemStep.release _ 1 (by decide) rfl) ?_
  refine Relation.ReflTransGen.head (VD.Batch.ItemStep.start _ 2 (by decide) rfl) ?_
  refine Relation.ReflTransGen.head (VD.Batch.ItemStep.acquire _ 2 (by decide) rfl (by decide)) ?_
  refine Relation.ReflTransGen.head (VD.Batch.ItemStep.handOff _ 2 (by decide) rfl rfl) ?_
  refine Relation.ReflTransGen.head (VD.Batch.ItemStep.release _ 2 (by decide) rfl) ?_
  exact Relation.ReflTransGen.refl

/-- Helper: no item of a fresh batch holds a semaphore slot. -/
theorem VD.Batch.slotCount_initItems (n : Nat) :
    VD.Batch.slotCount (VD.Batch.initItems n) = 0 := by
  unfold VD.Batch.slotCount VD.Batch.initItems
  rw [List.countP_eq_zero]
  intro a ha
  rw [List.eq_of_mem_replicate ha]
  decide

/-- Helper: no single `ItemStep` raises the slot occupancy above `M`. -/
theorem VD.Batch.itemStep_slot_le (M : Nat) (ts ts' : List VD.Batch.ItemState)
    (hstep : VD.Batch.ItemStep M ts ts')
    (hle : VD.Batch.slotCount ts ≤ M) :
    VD.Batch.slotCount ts' ≤ M := by
  cases hstep with
  | start i hlt h =>
    rw [List.get_eq_getElem] at h
    unfold VD.Batch.slotCount at *
    rw [List.countP_set _ _ i _ hlt]
    simp [h]
    omega
  | acquire i hlt h hM =>
    rw [List.get_eq_getElem] at h
    unfold VD.Batch.slotCount at *
    rw [List.countP_set _ _ i _ hlt]
    simp [h]
    omega
  | handOff i hlt h htr =>
    rw [List.get_eq_getElem] at h
    unfold VD.Batch.slotCount at *
    rw [List.countP_set _ _ i _ hlt]
    have hpos : 0 < List.countP
        (fun s => decide (s.item = VD.Batch.ItemPhase.inSlot)) ts :=
      List.countP_pos_iff.mpr ⟨ts[i], List.getElem_mem hlt, by simp [h]⟩
    simp [List.get_eq_getElem, h]
    omega
  | release i hlt h =>
    rw [List.get_eq_getElem] at h
    unfold VD.Batch.slotCount at *
    rw [List.countP_set _ _ i _ hlt]
    simp [h]
    omega
  | finishTransfer i hlt htr =>
    unfold VD.Batch.slotCount at *
    rw [List.countP_set _ _ i _ hlt]
    by_cases hc : ts[i].item = VD.Batch.ItemPhase.inSlot
    · have hpos : 0 < List.countP
          (fun s => decide (s.item = VD.Batch.ItemPhase.inSlot)) ts :=
        List.countP_pos_iff.mpr ⟨ts[i], List.getElem_mem hlt, by simp [hc]⟩
      simp [List.get_eq_getElem, hc]
      omega
    · simp [List.get_eq_getElem, hc]
      omega

/-- C5 (amended): the semaphore does bound how many item tasks hold a slot
at once — in every reachable state of a batch of `n` items at most `M`
tasks are inside the slot-guarded section, whatever `n` is. The transfers
themselves escape this gate (see the counterexample). -/
theorem VD.Batch.downloadVideos_slot_bounded (M n : Nat)
    (ts : List VD.Batch.ItemState)
    (h : VD.Batch.ItemReachable M (VD.Batch.initItems n) ts) :
    VD.Batch.slotCount ts ≤ M := by
  induction h with
  | refl => rw [VD.Batch.slotCount_initItems]; exact Nat.zero_le M
  | tail hsteps hstep ih => exact VD.Batch.itemStep_slot_le _ _ _ hstep ih

/-- Witness for C5 (amended): with capacity M = 1 and a batch of 2 items,
the state in which item 0 holds the slot with its transfer already handed
off stays within the slot bound. -/
theorem VD.Batch.downloadVideos_slot_bounded_witness :
    VD.Batch.slotCount
      [{ item := VD.Batch.ItemPhase.inSlot,
         transfer := VD.Batch.TransferPhase.streaming },
       { item := VD.Batch.ItemPhase.notStarted,
         transfer := VD.Batch.TransferPhase.notSpawned }] ≤ 1 :=
  VD.Batch.downloadVideos_slot_bounded 1 2
    [{ item := VD.Batch.ItemPhase.inSlot,
       transfer := VD.Batch.TransferPhase.streaming },
     { item := VD.Batch.ItemPhase.notStarted,
       transfer := VD.Batch.TransferPhase.notSpawned }]
    (Relation.ReflTransGen.head (VD.Batch.ItemStep.start _ 0 (by decide) rfl)
      (Relation.ReflTransGen.head
        (VD.Batch.ItemStep.acquire _ 0 (by decide) rfl (by decide))
        (Relation.ReflTransGen.head
          (VD.Batch.ItemStep.handOff _ 0 (by decide) rfl rfl)
          Relation.ReflTransGen.refl)))

/-- C8 refutation: `Manager.DownloadBatch` gates nothing — from a batch of 3
URLs the interleaving in which all three per-item tasks start before any
finishes is reachable, so 3 transfers run concurrently even when the
configured maximum is 1. -/
theorem VD.Mgr.downloadBatch_unbounded :
    VD.Mgr.MgrReachable (VD.Batch.initTasks 3)
      [VD.Batch.TaskState.running, VD.Batch.TaskState.running,
        VD.Batch.TaskState.running]
    ∧ VD.Batch.runningCount
        [VD.Batch.TaskState.running, VD.Batch.TaskState.running,
          VD.Batch.TaskState.running] = 3
    ∧ 1 < 3 := by
  refine ⟨?_, by decide, by decide⟩
  exact Relation.ReflTransGen.tail
    (Relation.ReflTransGen.tail
      (Relation.ReflTransGen.tail Relation.ReflTransGen.refl
        (VD.Mgr.MgrStep.start _ 0 (by decide) rfl))
      (VD.Mgr.MgrStep.start _ 1 (by decide) rfl))
    (VD.Mgr.MgrStep.start _ 2 (by decide) rfl)

/-- C6 refutation (the code, evaluated at the failing input): a download of
a file of known size 10 whose context is cancelled during the body copy with
4 bytes in the temp file — `performDownload` swallows the copy error because
the context is cancelled, the retry loop treats the attempt as a success and
calls `completeJob`, size verification fails, and the job ends "failed",
not "paused". -/
theorem VD.Resume.downloadJob_cancel_mid_copy_marks_failed :
    VD.Resume.runRetryLoop
        { id := "j", url := "u", filePath := "/out/f", tempPath := "t",
          metaPath := "m", fileSize := 10, downloaded := 0,
          status := "downloading", checksum := "", retryCount := 0,
          lastError := "" }
        { tempStat := some 4, tempChecksum := .ok "d41d8cd98f00b204e9800998ecf8427e",
          mkdirFails := false, renameFails := false }
        [{ transfer :=
             { tempSize := some 4, doFails := false, respStatus := 206,
               openFails := false, copyErr := true, ctxCancelled := true },
           ctxCancelledAtCheck := true, cancelledDuringBackoff := false }]
      = "failed"
    ∧ ("failed" : String) ≠ "paused" := by
  exact ⟨rfl, by decide⟩

/-- Counterexample to C7 as stated: the final completion update in
`completeJob` is a plain channel send — with a busy sink it blocks rather
than being dropped, while the streaming send in `progressWriter.Write` is
dropped. -/
theorem VD.Resume.completeJob_send_blocks :
    VD.Resume.completeJobSend { ready := false } = VD.Resume.SendOutcome.blocked
    ∧ VD.Resume.completeJobSend { ready := false } ≠ VD.Resume.SendOutcome.dropped
    ∧ VD.Resume.progressWriterSend { ready := false } = VD.Resume.SendOutcome.dropped := by
  decide

/-- C7 (amended): the per-write progress updates of `progressWriter.Write`
are sent non-blockingly — delivered when the sink is ready, dropped when it
is busy, never blocking the producer — while the final completion update in
`completeJob` and the failure update in `handleJobError` are plain sends
that block while the sink is busy. -/
theorem VD.Resume.progress_send_modes (sink : VD.Resume.ProgressSink) :
    VD.Resume.progressWriterSend sink ≠ VD.Resume.SendOutcome.blocked
    ∧ (sink.ready = false →
        VD.Resume.progressWriterSend sink = VD.Resume.SendOutcome.dropped
        ∧ VD.Resume.completeJobSend sink = VD.Resume.SendOutcome.blocked
        ∧ VD.Resume.handleJobErrorSend sink = VD.Resume.SendOutcome.blocked)
    ∧ (sink.ready = true →
        VD.Resume.progressWriterSend sink = VD.Resume.SendOutcome.delivered
        ∧ VD.Resume.completeJobSend sink = VD.Resume.SendOutcome.delivered
        ∧ VD.Resume.handleJobErrorSend sink = VD.Resume.SendOutcome.delivered) := by
  obtain ⟨r⟩ := sink
  cases r <;> decide

/-- Witness for C7 (amended), at a busy sink. -/
theorem VD.Resume.progress_send_modes_witness :
    VD.Resume.progressWriterSend { ready := false } = VD.Resume.SendOutcome.dropped
    ∧ VD.Resume.completeJobSend { ready := false } = VD.Resume.SendOutcome.blocked :=
  ⟨((VD.Resume.progress_send_modes { ready := false }).2.1 rfl).1,
   ((VD.Resume.progress_send_modes { ready := false }).2.1 rfl).2.1⟩

/-- Helper: after the fetch trace `order` has run, slot `i` holds segment
`i`'s content iff some fetch of `i` completed, and is otherwise untouched —
the slot written never depends on completion order. -/
theorem VD.M3U8.runFetches_slot {n : Nat} (contents : Fin n → List Nat)
    (order : List (Fin n)) (files : Fin n → Option (List Nat)) (i : Fin n) :
    VD.M3U8.runFetches contents order files i
      = if i ∈ order then some (contents i) else files i := by
  induction order generalizing files with
  | nil => simp [VD.M3U8.runFetches]
  | cons j rest ih =>
    show VD.M3U8.runFetches contents rest
        (VD.M3U8.setSlot files j (contents j)) i = _
    rw [ih]
    by_cases hmem : i ∈ rest
    · simp [hmem]
    · by_cases hij : i = j
      · subst hij
        simp [hmem, VD.M3U8.setSlot]
      · simp [hmem, hij, VD.M3U8.setSlot]

/-- Helper: the sequential copy loop of `mergeSegments` appends the segment
list to the accumulator. -/
theorem VD.M3U8.foldl_append_join (l : List (List Nat)) (a : List Nat) :
    List.foldl (fun out seg => out ++ seg) a l = a ++ l.flatten := by
  induction l generalizing a with
  | nil => simp
  | cons x xs ih => simp [ih]

/-- C9: when every segment fetch completed (in whatever order), the output
of `DownloadM3U8` is the concatenation of the segment contents in playlist
order; the completion order does not appear in the result. -/
theorem VD.M3U8.download_output_playlist_order (n : Nat)
    (contents : Fin n → List Nat) (order : List (Fin n))
    (hall : ∀ i, i ∈ order) :
    VD.M3U8.downloadOutput contents order = (List.ofFn contents).flatten := by
  unfold VD.M3U8.downloadOutput VD.M3U8.mergeSegments
  rw [VD.M3U8.foldl_append_join]
  rw [List.nil_append]
  have hfun : (fun i => (VD.M3U8.runFetches contents order (fun _ => none) i).getD [])
      = contents := by
    funext i
    rw [VD.M3U8.runFetches_slot]
    simp [hall i]
  rw [hfun]

/-- Witness for C9: two segments fetched in reversed completion order still
merge in playlist order. -/
theorem VD.M3U8.download_output_playlist_order_witness :
    VD.M3U8.downloadOutput (fun i : Fin 2 => [i.val]) [1, 0] = [0, 1] := by
  rw [VD.M3U8.download_output_playlist_order 2 (fun i : Fin 2 => [i.val]) [1, 0]
    (by decide)]
  decide
